/-
Verification of `algorithms_keeper/log.py`: a colorized structured logger
(ANSI color codec, field-style registry, argument formatter, access logger,
custom record formatter).

The Python module is shallowly embedded: the one runtime-mutable piece of
module state (the color of the `"status"` entry of `MSG_ARGS_FORMAT`) is made
explicit by passing the registry as a value; the formatter's mutable
`self._style._fmt` slot is an explicit input/output of `CustomFormatter.format`;
operations that can raise in Python (`getattr` on a missing attribute,
`%`-interpolation with a missing key or a malformed directive) return `Option`,
with `none` standing for the raised exception.
-/
import Mathlib

/-- `str.upper()` for the ASCII names this module upper-cases (color/style
names, the request scheme), as a character-by-character map. -/
def strUpper (s : String) : String := ⟨s.data.map Char.toUpper⟩

/-- `CSI = "\033["`. -/
def CSI : String := "\x1b["

/-- `colorcode(code) = CSI + str(code) + "m"`. -/
def colorcode (code : Nat) : String := CSI ++ toString code ++ "m"

/-- A value of the `MSG_ARGS_FORMAT` dictionary: a color name and an optional
style name (the Python sub-dicts either have a `"style"` key or not). -/
structure FieldStyle where
  color : String
  style : Option String
  deriving Repr, DecidableEq

/-- The `MSG_ARGS_FORMAT` dictionary at module load time, as an ordered
association list.  The `"status"` color starts as `""` ("determined during
runtime"). -/
def MSG_ARGS_FORMAT : List (String × FieldStyle) :=
  [("event", ⟨"green", none⟩),
   ("ratelimit", ⟨"white", some "bold"⟩),
   ("time_remaining", ⟨"white", some "bold"⟩),
   ("url", ⟨"blue", some "underline"⟩),
   ("file", ⟨"yellow", none⟩),
   ("request", ⟨"yellow", none⟩),
   ("time", ⟨"yellow", none⟩),
   ("status", ⟨"", some "bold"⟩),
   ("method", ⟨"magenta", some "bold"⟩),
   ("path", ⟨"blue", none⟩),
   ("data", ⟨"yellow", none⟩),
   ("version", ⟨"yellow", none⟩)]

/-- `STATUS_OK = (200, 201, 204)`. -/
def STATUS_OK : List Nat := [200, 201, 204]

/-- `inject_status_color(status)`: sets
`MSG_ARGS_FORMAT["status"]["color"] = "green" if status in STATUS_OK else "red"`.
The registry is threaded explicitly, so the write becomes a keyed update. -/
def inject_status_color (reg : List (String × FieldStyle)) (status : Nat) :
    List (String × FieldStyle) :=
  reg.map fun kv =>
    if kv.1 = "status" then
      (kv.1, { kv.2 with color := if status ∈ STATUS_OK then "green" else "red" })
    else kv

namespace AnsiColor

def BLACK : String := colorcode 30
def RED : String := colorcode 31
def GREEN : String := colorcode 32
def YELLOW : String := colorcode 33
def BLUE : String := colorcode 34
def MAGENTA : String := colorcode 35
def CYAN : String := colorcode 36
def WHITE : String := colorcode 37
def RESET : String := colorcode 39
def BOLD : String := colorcode 1
def DIM : String := colorcode 2
def UNDERLINE : String := colorcode 4
def NORMAL : String := colorcode 22
def RESET_ALL : String := colorcode 0
def DEBUG : String := DIM
def INFO : String := DIM
def WARNING : String := YELLOW
def ERROR : String := RED
def CRITICAL : String := MAGENTA ++ BOLD

/-- `getattr(AnsiColor, name)` restricted to the string-valued attributes;
`none` models the `AttributeError` raised for any other name. -/
def attr (nm : String) : Option String :=
  if nm = "BLACK" then some BLACK
  else if nm = "RED" then some RED
  else if nm = "GREEN" then some GREEN
  else if nm = "YELLOW" then some YELLOW
  else if nm = "BLUE" then some BLUE
  else if nm = "MAGENTA" then some MAGENTA
  else if nm = "CYAN" then some CYAN
  else if nm = "WHITE" then some WHITE
  else if nm = "RESET" then some RESET
  else if nm = "BOLD" then some BOLD
  else if nm = "DIM" then some DIM
  else if nm = "UNDERLINE" then some UNDERLINE
  else if nm = "NORMAL" then some NORMAL
  else if nm = "RESET_ALL" then some RESET_ALL
  else if nm = "DEBUG" then some DEBUG
  else if nm = "INFO" then some INFO
  else if nm = "WARNING" then some WARNING
  else if nm = "ERROR" then some ERROR
  else if nm = "CRITICAL" then some CRITICAL
  else none

/-- `AnsiColor.inject(msg, color, style, reset)`:
`"".join([RESET_ALL, getattr(self, color.upper()), getattr(self, style.upper()),
msg, RESET_ALL, getattr(self, reset.upper())])`.  A missing attribute
(`AttributeError`) is `none`. -/
def inject (msg color style reset : String) : Option String := do
  let c ← attr (strUpper color)
  let s ← attr (strUpper style)
  let r ← attr (strUpper reset)
  pure (RESET_ALL ++ c ++ s ++ msg ++ RESET_ALL ++ r)

end AnsiColor

/-- `format_args(args, level)`: builds a fresh dict; a value whose key is in
`MSG_ARGS_FORMAT` is replaced by
`Color.inject(str(value), c["color"], "normal" if "style" not in c else c["style"], level)`,
other values are carried through.  Values are already their `str(...)` form. -/
def format_args (reg : List (String × FieldStyle)) (args : List (String × String))
    (level : String) : Option (List (String × String)) :=
  match args with
  | [] => some []
  | (key, value) :: rest => do
      let value' ←
        match reg.lookup key with
        | some c => AnsiColor.inject value c.color (c.style.getD "normal") level
        | none => some value
      let rest' ← format_args reg rest level
      pure ((key, value') :: rest')

/-- Scanner state for Python `%`-interpolation with a mapping:
copying plain text, just after `%`, or collecting a key after `%(`. -/
inductive IMode where
  | copy : IMode
  | percent : IMode
  | key : String → IMode

/-- One pass of Python's `fmt % mapping` restricted to the directives the
module's templates use: `%(name)s` (value substituted; a missing key, i.e.
`KeyError`, is `none`) and `%%`; any other `%`-directive is `none`
(`ValueError`). -/
def interpGo (lookup : String → Option String) : IMode → List Char → Option String
  | .copy, [] => some ""
  | .copy, c :: rest =>
      if c = '%' then interpGo lookup .percent rest
      else (interpGo lookup .copy rest).map (fun s => String.singleton c ++ s)
  | .percent, [] => none
  | .percent, c :: rest =>
      if c = '%' then (interpGo lookup .copy rest).map (fun s => "%" ++ s)
      else if c = '(' then interpGo lookup (.key "") rest
      else none
  | .key _, [] => none
  | .key acc, c :: rest =>
      if c = ')' then
        match rest with
        | [] => none
        | c2 :: rest2 =>
            if c2 = 's' then do
              let v ← lookup acc
              let s ← interpGo lookup .copy rest2
              pure (v ++ s)
            else none
      else interpGo lookup (.key (acc.push c)) rest

/-- `fmt % mapping` for a string template. -/
def interp (fmt : String) (lookup : String → Option String) : Option String :=
  interpGo lookup .copy fmt.data


/-- Python truthiness of an optional string (`None` and `""` are falsy). -/
def strTruthy : Option String → Bool
  | none => false
  | some s => !s.isEmpty

/-- `msg[-1:] != "\n"` is false, i.e. the last character is a newline. -/
def lastIsNewline (s : String) : Bool := s.data.getLast? == some '\n'

/-- `s.replace("\n", rep)`: every newline replaced (the pattern is a single
character, so matches cannot overlap). -/
def replaceNewline (s : String) (rep : String) : String :=
  ⟨s.data.foldr (fun ch acc => if ch = '\n' then rep.data ++ acc else ch :: acc) []⟩

/-- The fields of a `logging.LogRecord` the module reads or writes.
`exc_info` carries the text `Formatter.formatException` would render for the
attached exception info (`none` when no exception is attached); `stack_info`
is the stack text (`Formatter.formatStack` returns it unchanged). -/
structure LogRecord where
  levelname : String
  msg : String
  args : List (String × String)
  exc_info : Option String
  exc_text : Option String
  stack_info : Option String
  message : String
  deriving Repr, DecidableEq

/-- `LogRecord.getMessage()`: `str(self.msg)`, interpolated with `self.args`
only when the args mapping is truthy (non-empty). -/
def LogRecord.getMessage (r : LogRecord) : Option String :=
  if r.args.isEmpty then some r.msg else interp r.msg fun k => r.args.lookup k

namespace CustomAccessLogger

/-- The completed request's fields the logger consumes. -/
structure BaseRequest where
  method : String
  path_qs : String
  scheme : String
  versionMajor : Nat
  versionMinor : Nat

/-- The completed response's fields the logger consumes. -/
structure StreamResponse where
  status : Nat
  reason : String

/-- Python's built-in `round` on the exact rational value: nearest integer,
ties to the even one. -/
def pyRound (q : ℚ) : ℤ :=
  let f : ℤ := ⌊q⌋
  let rem : ℚ := q - f
  if rem < 1 / 2 then f
  else if 1 / 2 < rem then f + 1
  else if f % 2 = 0 then f else f + 1

def LOG_FORMAT : String :=
  "%(logger)s \"%(method)s %(path)s %(version)s\" => %(status)s %(time)s"

/-- `CustomAccessLogger.log(request, response, time)`: chooses
`logger.debug`/`logger.error` by `response.status in STATUS_OK`, calls
`inject_status_color(response.status)`, then makes its single logging call.
The returned pair is the registry after the classification together with the
list of `(severity, format, args)` emissions made by the call — by
construction the registry update happens before the emission. -/
def log (reg : List (String × FieldStyle)) (loggerName : String)
    (request : BaseRequest) (response : StreamResponse) (time : ℚ) :
    List (String × FieldStyle) × List (String × String × List (String × String)) :=
  let loggerlevel := if response.status ∈ STATUS_OK then "DEBUG" else "ERROR"
  let reg' := inject_status_color reg response.status
  (reg',
   [(loggerlevel, LOG_FORMAT,
     [("logger", loggerName),
      ("method", request.method),
      ("path", request.path_qs),
      ("version",
       strUpper request.scheme ++ "/" ++ toString request.versionMajor ++ "." ++
         toString request.versionMinor),
      ("status", toString response.status ++ ":" ++ response.reason),
      ("time", toString (pyRound (time * 1000)) ++ "ms")])])

end CustomAccessLogger

namespace CustomFormatter

def default_fmt : String := "[%(levelname)s] %(message)s"

/-- `LOG_LEVEL_FORMAT.get(levelname, default_fmt)`: the severity-colored
template for the five known level names, the plain default otherwise. -/
def LOG_LEVEL_FORMAT (levelname : String) : String :=
  if levelname = "DEBUG" then AnsiColor.DEBUG ++ default_fmt ++ AnsiColor.RESET_ALL
  else if levelname = "INFO" then AnsiColor.INFO ++ default_fmt ++ AnsiColor.RESET_ALL
  else if levelname = "WARNING" then
    AnsiColor.WARNING ++ default_fmt ++ AnsiColor.RESET_ALL
  else if levelname = "ERROR" then
    AnsiColor.ERROR ++ default_fmt ++ AnsiColor.RESET_ALL
  else if levelname = "CRITICAL" then
    AnsiColor.CRITICAL ++ default_fmt ++ AnsiColor.RESET_ALL
  else default_fmt

/-- `record.__dict__` restricted to the attributes the module's templates
interpolate. -/
def recordDict (r : LogRecord) : String → Option String := fun k =>
  if k = "levelname" then some r.levelname
  else if k = "message" then some r.message
  else none

/-- `if record.args and isinstance(record.args, MutableMapping): record.args =
format_args(record.args, record.levelname)`. -/
def argStep (reg : List (String × FieldStyle)) (r : LogRecord) : Option LogRecord :=
  if r.args.isEmpty then some r
  else (format_args reg r.args r.levelname).map fun a => { r with args := a }

/-- The body of `CustomFormatter.format` after the template was selected:
argument colorization, `getMessage`, exception caching and recoloring, stack
appending, `record.message` assignment, final `formatMessage`.  Returns the
mutated record and the formatted line. -/
def formatBody (reg : List (String × FieldStyle)) (custom_fmt : String)
    (r : LogRecord) : Option (LogRecord × String) := do
  let r ← argStep reg r
  let msg ← r.getMessage
  let r := if r.exc_info.isSome && !(strTruthy r.exc_text) then
      { r with exc_text := r.exc_info }
    else r
  let msg ←
    if strTruthy r.exc_text then do
      let msg := if lastIsNewline msg then msg else msg ++ "\n"
      let msg := msg ++ r.exc_text.getD ""
      let c ← AnsiColor.attr r.levelname
      pure (replaceNewline msg ("\n" ++ c))
    else pure msg
  let msg :=
    if strTruthy r.stack_info then
      (if lastIsNewline msg then msg else msg ++ "\n") ++ r.stack_info.getD ""
    else msg
  let r := { r with message := msg }
  let out ← interp custom_fmt (recordDict r)
  pure (r, out)

/-- `CustomFormatter.format(record)`.  `styleFmt` is the formatter's mutable
`self._style._fmt` before the call; the first component of the result is its
value after the call (the method assigns the selected template to it before
formatting). -/
def format (_styleFmt : String) (reg : List (String × FieldStyle)) (r : LogRecord) :
    Option (String × LogRecord × String) :=
  let custom_fmt := LOG_LEVEL_FORMAT r.levelname
  (formatBody reg custom_fmt r).map fun p => (custom_fmt, p.1, p.2)

end CustomFormatter


theorem lookup_cons_self {β : Type} (k : String) (v : β) (l : List (String × β)) :
    List.lookup k ((k, v) :: l) = some v := by
  simp [List.lookup]

theorem lookup_cons_ne {β : Type} (k k' : String) (v : β) (l : List (String × β))
    (h : k' ≠ k) : List.lookup k ((k', v) :: l) = List.lookup k l := by
  have hb : (k == k') = false := beq_eq_false_iff_ne.mpr (Ne.symm h)
  simp [List.lookup, hb]

theorem inject_status_color_cons (k : String) (v : FieldStyle)
    (rest : List (String × FieldStyle)) (status : Nat) :
    inject_status_color ((k, v) :: rest) status =
      (if k = "status" then
        (k, { v with color := if status ∈ STATUS_OK then "green" else "red" })
      else (k, v)) :: inject_status_color rest status := rfl

theorem lookup_inject_status_color_status (reg : List (String × FieldStyle))
    (status : Nat) (fs : FieldStyle) (h : reg.lookup "status" = some fs) :
    (inject_status_color reg status).lookup "status" =
      some { fs with color := if status ∈ STATUS_OK then "green" else "red" } := by
  induction reg with
  | nil => exact Option.noConfusion h
  | cons kv rest ih =>
    obtain ⟨k', v⟩ := kv
    rw [inject_status_color_cons]
    by_cases h1 : k' = "status"
    · subst h1
      rw [lookup_cons_self] at h
      cases h
      rw [if_pos rfl, lookup_cons_self]
    · rw [lookup_cons_ne _ _ _ _ h1] at h
      rw [if_neg h1, lookup_cons_ne _ _ _ _ h1]
      exact ih h

theorem lookup_inject_status_color_ne (reg : List (String × FieldStyle))
    (status : Nat) (k : String) (hk : k ≠ "status") :
    (inject_status_color reg status).lookup k = reg.lookup k := by
  induction reg with
  | nil => rfl
  | cons kv rest ih =>
    obtain ⟨k', v⟩ := kv
    rw [inject_status_color_cons]
    by_cases h1 : k' = "status"
    · subst h1
      have hne : "status" ≠ k := Ne.symm hk
      rw [if_pos rfl, lookup_cons_ne _ _ _ _ hne, lookup_cons_ne _ _ _ _ hne]
      exact ih
    · rw [if_neg h1]
      by_cases h2 : k' = k
      · subst h2
        rw [lookup_cons_self, lookup_cons_self]
      · rw [lookup_cons_ne _ _ _ _ h2, lookup_cons_ne _ _ _ _ h2]
        exact ih

theorem interp_level_template_isSome (lvl : String) (r : LogRecord) :
    (interp (CustomFormatter.LOG_LEVEL_FORMAT lvl) (CustomFormatter.recordDict r)).isSome = true := by
  unfold CustomFormatter.LOG_LEVEL_FORMAT
  split_ifs <;> rfl

theorem argStep_preserves (reg : List (String × FieldStyle)) (r r1 : LogRecord)
    (h : CustomFormatter.argStep reg r = some r1) :
    r1.levelname = r.levelname ∧ r1.msg = r.msg ∧ r1.exc_info = r.exc_info ∧
      r1.exc_text = r.exc_text ∧ r1.stack_info = r.stack_info ∧
      r1.message = r.message := by
  unfold CustomFormatter.argStep at h
  split at h
  · cases h
    exact ⟨rfl, rfl, rfl, rfl, rfl, rfl⟩
  · cases hfa : format_args reg r.args r.levelname with
    | none => rw [hfa] at h; exact Option.noConfusion h
    | some a =>
      rw [hfa] at h
      cases h
      exact ⟨rfl, rfl, rfl, rfl, rfl, rfl⟩

/-- C5: `inject(message, color, style, resetLevel)` is exactly the
concatenation reset-all ++ color-code ++ style-code ++ message ++ reset-all ++
resetLevel-code, for every message string, whenever the three names resolve to
ANSI attributes; in particular it opens and closes with a full reset and ends
with the caller-specified reset color, so nesting injected strings never
discards the outer color after the inner reset. -/
theorem inject_is_exact_concatenation (msg color style reset cc sc rc : String)
    (hc : AnsiColor.attr (strUpper color) = some cc)
    (hs : AnsiColor.attr (strUpper style) = some sc)
    (hr : AnsiColor.attr (strUpper reset) = some rc) :
    AnsiColor.inject msg color style reset =
      some (AnsiColor.RESET_ALL ++ cc ++ sc ++ msg ++ AnsiColor.RESET_ALL ++ rc) := by
  simp [AnsiColor.inject, hc, hs, hr]

theorem inject_is_exact_concatenation_witness :
    AnsiColor.inject "hi" "red" "bold" "DEBUG" =
      some (AnsiColor.RESET_ALL ++ AnsiColor.RED ++ AnsiColor.BOLD ++ "hi" ++
        AnsiColor.RESET_ALL ++ AnsiColor.DEBUG) :=
  inject_is_exact_concatenation "hi" "red" "bold" "DEBUG"
    AnsiColor.RED AnsiColor.BOLD AnsiColor.DEBUG (by decide) (by decide) (by decide)

/-- C6 counterexample: before the first classification the registry's status
color slot holds `""`, which is neither `"green"` nor `"red"` — so a record
carrying a `"status"` field cannot be formatted yet (the color name does not
resolve). -/
theorem status_slot_initially_empty :
    (MSG_ARGS_FORMAT.lookup "status").map FieldStyle.color = some "" ∧
    ¬((MSG_ARGS_FORMAT.lookup "status").map FieldStyle.color = some "green" ∨
      (MSG_ARGS_FORMAT.lookup "status").map FieldStyle.color = some "red") := by
  decide

/-- C6 amended: after every classification the status color slot holds
`"green"` or `"red"` (green exactly for codes in `{200, 201, 204}`); before the
first classification it holds the empty string, so the slot must be written
before a record carrying a `"status"` field is formatted. -/
theorem status_slot_after_classification (status : Nat) :
    (((inject_status_color MSG_ARGS_FORMAT status).lookup "status").map
        FieldStyle.color = some "green" ∨
      ((inject_status_color MSG_ARGS_FORMAT status).lookup "status").map
        FieldStyle.color = some "red") ∧
    ((inject_status_color MSG_ARGS_FORMAT status).lookup "status").map
        FieldStyle.color =
      some (if status ∈ STATUS_OK then "green" else "red") ∧
    (MSG_ARGS_FORMAT.lookup "status").map FieldStyle.color = some "" := by
  have h := lookup_inject_status_color_status MSG_ARGS_FORMAT status
    ⟨"", some "bold"⟩ (by decide)
  rw [h]
  refine ⟨?_, rfl, by decide⟩
  by_cases hs : status ∈ STATUS_OK
  · left; rw [if_pos hs]; rfl
  · right; rw [if_neg hs]; rfl

/-- C1: for every completed request/response pair the access logger makes
exactly one emission; the emitted severity is debug if and only if the response
status is in `{200, 201, 204}` and error otherwise; and the registry in effect
at the emission (the logging call happens after `inject_status_color`) has its
status color slot set to `"green"` for those codes and `"red"` for every other
code. -/
theorem access_log_emits_once_and_classifies
    (reg : List (String × FieldStyle)) (name : String)
    (request : CustomAccessLogger.BaseRequest)
    (response : CustomAccessLogger.StreamResponse) (time : ℚ) (fs : FieldStyle)
    (hreg : reg.lookup "status" = some fs) :
    (CustomAccessLogger.log reg name request response time).2.length = 1 ∧
    (∀ em ∈ (CustomAccessLogger.log reg name request response time).2,
      ((em.1 = "DEBUG") ↔ response.status ∈ STATUS_OK) ∧
      ((em.1 = "ERROR") ↔ response.status ∉ STATUS_OK)) ∧
    ((CustomAccessLogger.log reg name request response time).1.lookup "status").map
        FieldStyle.color =
      some (if response.status ∈ STATUS_OK then "green" else "red") := by
  refine ⟨rfl, ?_, ?_⟩
  · intro em hem
    simp only [CustomAccessLogger.log, List.mem_singleton] at hem
    subst hem
    by_cases h : response.status ∈ STATUS_OK
    · simp only [if_pos h]
      exact ⟨by simp [h], by simp [h]⟩
    · simp only [if_neg h]
      exact ⟨by simp [h], by simp [h]⟩
  · rw [show (CustomAccessLogger.log reg name request response time).1 =
      inject_status_color reg response.status from rfl,
      lookup_inject_status_color_status reg response.status fs hreg]
    rfl

theorem access_log_emits_once_and_classifies_witness :
    (CustomAccessLogger.log MSG_ARGS_FORMAT "bot" ⟨"GET", "/", "http", 1, 1⟩
        ⟨200, "OK"⟩ 0).2.length = 1 ∧
    (∀ em ∈ (CustomAccessLogger.log MSG_ARGS_FORMAT "bot" ⟨"GET", "/", "http", 1, 1⟩
        ⟨200, "OK"⟩ 0).2,
      ((em.1 = "DEBUG") ↔ (200 : Nat) ∈ STATUS_OK) ∧
      ((em.1 = "ERROR") ↔ (200 : Nat) ∉ STATUS_OK)) ∧
    ((CustomAccessLogger.log MSG_ARGS_FORMAT "bot" ⟨"GET", "/", "http", 1, 1⟩
        ⟨200, "OK"⟩ 0).1.lookup "status").map FieldStyle.color =
      some (if (200 : Nat) ∈ STATUS_OK then "green" else "red") :=
  access_log_emits_once_and_classifies MSG_ARGS_FORMAT "bot"
    ⟨"GET", "/", "http", 1, 1⟩ ⟨200, "OK"⟩ 0 ⟨"", some "bold"⟩ (by decide)

/-- C7: scenario A — logger `"bot"`, `GET /webhook` over HTTP/1.1 answered
`200 "OK"` in 0.0123 s gives one debug-level record whose message body is
`bot "GET /webhook HTTP/1.1" => 200:OK 12ms`; scenario B — `POST /hook?x=1`
over HTTP/1.1 answered `500 "Internal Server Error"` in 1.2 s gives one
error-level record whose message body is
`bot "POST /hook?x=1 HTTP/1.1" => 500:Internal Server Error 1200ms`.
The elapsed times are the exact rationals 123/10000 and 6/5; `round` is
Python's banker's rounding. -/
theorem access_log_scenarios :
    ((CustomAccessLogger.log MSG_ARGS_FORMAT "bot" ⟨"GET", "/webhook", "http", 1, 1⟩
        ⟨200, "OK"⟩ (123 / 10000)).2 =
      [("DEBUG", CustomAccessLogger.LOG_FORMAT,
        [("logger", "bot"), ("method", "GET"), ("path", "/webhook"),
         ("version", "HTTP/1.1"), ("status", "200:OK"), ("time", "12ms")])] ∧
      interp CustomAccessLogger.LOG_FORMAT
        (fun k => List.lookup k
          [("logger", "bot"), ("method", "GET"), ("path", "/webhook"),
           ("version", "HTTP/1.1"), ("status", "200:OK"), ("time", "12ms")]) =
        some "bot \"GET /webhook HTTP/1.1\" => 200:OK 12ms") ∧
    ((CustomAccessLogger.log MSG_ARGS_FORMAT "bot" ⟨"POST", "/hook?x=1", "http", 1, 1⟩
        ⟨500, "Internal Server Error"⟩ (6 / 5)).2 =
      [("ERROR", CustomAccessLogger.LOG_FORMAT,
        [("logger", "bot"), ("method", "POST"), ("path", "/hook?x=1"),
         ("version", "HTTP/1.1"), ("status", "500:Internal Server Error"),
         ("time", "1200ms")])] ∧
      interp CustomAccessLogger.LOG_FORMAT
        (fun k => List.lookup k
          [("logger", "bot"), ("method", "POST"), ("path", "/hook?x=1"),
           ("version", "HTTP/1.1"), ("status", "500:Internal Server Error"),
           ("time", "1200ms")]) =
        some "bot \"POST /hook?x=1 HTTP/1.1\" => 500:Internal Server Error 1200ms") := by
  have hA : CustomAccessLogger.pyRound ((123 / 10000 : ℚ) * 1000) = 12 := by
    unfold CustomAccessLogger.pyRound
    norm_num
  have hB : CustomAccessLogger.pyRound ((6 / 5 : ℚ) * 1000) = 1200 := by
    unfold CustomAccessLogger.pyRound
    norm_num
  refine ⟨⟨?_, by decide⟩, ⟨?_, by decide⟩⟩
  · rw [show (CustomAccessLogger.log MSG_ARGS_FORMAT "bot"
        ⟨"GET", "/webhook", "http", 1, 1⟩ ⟨200, "OK"⟩ (123 / 10000)).2 =
      [("DEBUG", CustomAccessLogger.LOG_FORMAT,
        [("logger", "bot"), ("method", "GET"), ("path", "/webhook"),
         ("version", strUpper "http" ++ "/" ++ toString (1 : Nat) ++ "." ++
           toString (1 : Nat)),
         ("status", toString (200 : Nat) ++ ":" ++ "OK"),
         ("time", toString (CustomAccessLogger.pyRound ((123 / 10000 : ℚ) * 1000)) ++
           "ms")])] from rfl, hA]
    decide
  · rw [show (CustomAccessLogger.log MSG_ARGS_FORMAT "bot"
        ⟨"POST", "/hook?x=1", "http", 1, 1⟩ ⟨500, "Internal Server Error"⟩ (6 / 5)).2 =
      [("ERROR", CustomAccessLogger.LOG_FORMAT,
        [("logger", "bot"), ("method", "POST"), ("path", "/hook?x=1"),
         ("version", strUpper "http" ++ "/" ++ toString (1 : Nat) ++ "." ++
           toString (1 : Nat)),
         ("status", toString (500 : Nat) ++ ":" ++ "Internal Server Error"),
         ("time", toString (CustomAccessLogger.pyRound ((6 / 5 : ℚ) * 1000)) ++
           "ms")])] from rfl, hB]
    decide

/-- C2 counterexample: for a record at level ERROR whose base message is
"a\nb" and whose rendered exception text is "x", the code replaces the
newline inside the base message (and the separator newline) as well, giving
"a\n" ++ ERROR ++ "b\n" ++ ERROR ++ "x" — not the text "a\nb\nx" the claim
mandates (replacement only inside the appended exception text, which here
contains no newline at all). -/
theorem exc_recolor_counterexample :
    (CustomFormatter.format "%(message)s" MSG_ARGS_FORMAT
        ⟨"ERROR", "a\nb", [], some "x", none, none, ""⟩).map
        (fun p => p.2.1.message) =
      some ("a\n" ++ AnsiColor.ERROR ++ "b\n" ++ AnsiColor.ERROR ++ "x") ∧
    "a\n" ++ AnsiColor.ERROR ++ "b\n" ++ AnsiColor.ERROR ++ "x" ≠ "a\nb\nx" := by
  decide

/-- C2 amended: when rendered exception text exists, the formatter ensures the
base message ends with a newline, appends the exception text, and then replaces
every newline of the entire combined text — including newlines inside the base
message and the separating newline, not only those inside the appended text —
with a newline followed by the record’s severity color code. -/
theorem exc_append_recolors_all_newlines
    (styleFmt lvl msg0 e c mOld : String) (reg : List (String × FieldStyle))
    (he : e ≠ "") (hc : AnsiColor.attr lvl = some c) :
    ∃ out, CustomFormatter.format styleFmt reg ⟨lvl, msg0, [], none, some e, none, mOld⟩ =
      some (CustomFormatter.LOG_LEVEL_FORMAT lvl,
        ⟨lvl, msg0, [], none, some e, none,
          replaceNewline ((if lastIsNewline msg0 then msg0 else msg0 ++ "\n") ++ e)
            ("\n" ++ c)⟩,
        out) := by
  have hie : e.isEmpty = false := by
    cases hb : e.isEmpty
    · rfl
    · exact absurd ((String.isEmpty_iff e).mp (by simp [hb])) he
  obtain ⟨out, hout⟩ := Option.isSome_iff_exists.mp
    (interp_level_template_isSome lvl
      ⟨lvl, msg0, [], none, some e, none,
        replaceNewline ((if lastIsNewline msg0 then msg0 else msg0 ++ "\n") ++ e)
          ("\n" ++ c)⟩)
  refine ⟨out, ?_⟩
  simp [CustomFormatter.format, CustomFormatter.formatBody,
    CustomFormatter.argStep, LogRecord.getMessage, strTruthy, hie, hc, hout]

theorem exc_append_recolors_all_newlines_witness :
    ∃ out, CustomFormatter.format "%(message)s" MSG_ARGS_FORMAT
        ⟨"ERROR", "base", [], none, some "tb\nline2", none, ""⟩ =
      some (CustomFormatter.LOG_LEVEL_FORMAT "ERROR",
        ⟨"ERROR", "base", [], none, some "tb\nline2", none,
          replaceNewline
            ((if lastIsNewline "base" then "base" else "base" ++ "\n") ++ "tb\nline2")
            ("\n" ++ AnsiColor.ERROR)⟩,
        out) :=
  exc_append_recolors_all_newlines "%(message)s" "ERROR" "base" "tb\nline2"
    AnsiColor.ERROR "" MSG_ARGS_FORMAT (by decide) (by decide)

/-- C3 counterexample: a record with the unrecognized severity name "TRACE"
and an attached exception payload makes `CustomFormatter.format` fail
(`getattr(AnsiColor, "TRACE")` raises `AttributeError`), contradicting the
claim that formatting surfaces no error regardless of exception or stack
payloads. -/
theorem unknown_level_with_exception_fails :
    CustomFormatter.format "%(message)s" MSG_ARGS_FORMAT
      ⟨"TRACE", "hi", [], some "boom", none, none, ""⟩ = none := by
  decide

/-- C3 amended: for a record whose severity level name is unrecognized, the
plain default template is selected; formatting surfaces no error provided the
record carries no structured arguments and no exception payload (a stack
payload alone is harmless) — with an exception payload, or with registry-keyed
arguments, the `getattr` on the unrecognized name raises. -/
theorem unknown_level_uses_default_template
    (styleFmt lvl msg0 mOld : String) (stack : Option String)
    (reg : List (String × FieldStyle))
    (h : lvl ∉ ["DEBUG", "INFO", "WARNING", "ERROR", "CRITICAL"]) :
    ∃ r' out, CustomFormatter.format styleFmt reg
        ⟨lvl, msg0, [], none, none, stack, mOld⟩ =
      some (CustomFormatter.default_fmt, r', out) := by
  have h' := h
  simp only [List.mem_cons, List.not_mem_nil, or_false, not_or] at h'
  obtain ⟨h1, h2, h3, h4, h5⟩ := h'
  have hfmt : CustomFormatter.LOG_LEVEL_FORMAT lvl = CustomFormatter.default_fmt := by
    simp [CustomFormatter.LOG_LEVEL_FORMAT, h1, h2, h3, h4, h5]
  rcases stack with _ | st
  · obtain ⟨out, hout⟩ := Option.isSome_iff_exists.mp
      (interp_level_template_isSome lvl ⟨lvl, msg0, [], none, none, none, msg0⟩)
    refine ⟨⟨lvl, msg0, [], none, none, none, msg0⟩, out, ?_⟩
    rw [← hfmt]
    simp [CustomFormatter.format, CustomFormatter.formatBody,
      CustomFormatter.argStep, LogRecord.getMessage, strTruthy, hout]
  · cases hb : st.isEmpty
    · obtain ⟨out, hout⟩ := Option.isSome_iff_exists.mp
        (interp_level_template_isSome lvl
          ⟨lvl, msg0, [], none, none, some st,
            (if lastIsNewline msg0 then msg0 else msg0 ++ "\n") ++ st⟩)
      refine ⟨⟨lvl, msg0, [], none, none, some st,
        (if lastIsNewline msg0 then msg0 else msg0 ++ "\n") ++ st⟩, out, ?_⟩
      rw [← hfmt]
      simp [CustomFormatter.format, CustomFormatter.formatBody,
        CustomFormatter.argStep, LogRecord.getMessage, strTruthy, hb, hout]
    · obtain ⟨out, hout⟩ := Option.isSome_iff_exists.mp
        (interp_level_template_isSome lvl ⟨lvl, msg0, [], none, none, some st, msg0⟩)
      refine ⟨⟨lvl, msg0, [], none, none, some st, msg0⟩, out, ?_⟩
      rw [← hfmt]
      simp [CustomFormatter.format, CustomFormatter.formatBody,
        CustomFormatter.argStep, LogRecord.getMessage, strTruthy, hb, hout]

theorem unknown_level_uses_default_template_witness :
    ∃ r' out, CustomFormatter.format "%(message)s" MSG_ARGS_FORMAT
        ⟨"TRACE", "hi", [], none, none, none, ""⟩ =
      some (CustomFormatter.default_fmt, r', out) :=
  unknown_level_uses_default_template "%(message)s" "TRACE" "hi" "" none
    MSG_ARGS_FORMAT (by decide)

/-- C4 counterexample: `format_args` does not return a mapping for every input
mapping and level string — with the level string "TRACE" (no such ANSI
attribute) and a registry-keyed argument, the inner `getattr` raises and no
mapping is produced. -/
theorem format_args_unknown_level_fails :
    format_args MSG_ARGS_FORMAT [("event", "x")] "TRACE" = none := by
  decide

/-- C4 amended: whenever every registry-keyed entry of the input resolves (its
color, its style — defaulting to "normal" — and the level name are ANSI
attribute names), `format_args` returns a new mapping with exactly the input's
key sequence, in which a value whose key is in the registry is replaced by the
corresponding injection and a value whose key is absent is carried through
unchanged.  The input itself is never mutated (the function builds a fresh
mapping; in this embedding all values are immutable). -/
theorem format_args_keyset_and_values
    (reg : List (String × FieldStyle)) (args : List (String × String))
    (level : String)
    (h : ∀ p ∈ args, Option.elim (reg.lookup p.1) true
      (fun st => (AnsiColor.inject p.2 st.color (st.style.getD "normal") level).isSome) =
      true) :
    ∃ out, format_args reg args level = some out ∧
      out.map Prod.fst = args.map Prod.fst ∧
      List.Forall₂ (fun p q =>
        p.1 = q.1 ∧
        (reg.lookup p.1 = none → q.2 = p.2) ∧
        (∀ st, reg.lookup p.1 = some st →
          AnsiColor.inject p.2 st.color (st.style.getD "normal") level = some q.2))
        args out := by
  induction args with
  | nil => exact ⟨[], rfl, rfl, List.Forall₂.nil⟩
  | cons p rest ih =>
    obtain ⟨k, v⟩ := p
    obtain ⟨out, hout, hkeys, hfa⟩ :=
      ih fun q hq => h q (List.mem_cons_of_mem _ hq)
    have hh := h (k, v) (List.mem_cons_self _ _)
    cases hl : reg.lookup k with
    | none =>
      refine ⟨(k, v) :: out, ?_, ?_, ?_⟩
      · simp [format_args, hl, hout]
      · simp [hkeys]
      · refine List.Forall₂.cons ⟨rfl, fun _ => rfl, ?_⟩ hfa
        intro st hst
        rw [hl] at hst
        exact Option.noConfusion hst
    | some st =>
      rw [hl] at hh
      simp only [Option.elim_some] at hh
      obtain ⟨v', hv'⟩ := Option.isSome_iff_exists.mp hh
      refine ⟨(k, v') :: out, ?_, ?_, ?_⟩
      · simp [format_args, hl, hv', hout]
      · simp [hkeys]
      · refine List.Forall₂.cons ⟨rfl, ?_, ?_⟩ hfa
        · intro hnone
          rw [hl] at hnone
          exact Option.noConfusion hnone
        · intro st' hst'
          rw [hl] at hst'
          cases hst'
          exact hv'

theorem format_args_keyset_and_values_witness :
    ∃ out, format_args (inject_status_color MSG_ARGS_FORMAT 200)
        [("event", "x"), ("custom", "y")] "INFO" = some out ∧
      out.map Prod.fst = [("event", "x"), ("custom", "y")].map Prod.fst ∧
      List.Forall₂ (fun p q =>
        p.1 = q.1 ∧
        ((inject_status_color MSG_ARGS_FORMAT 200).lookup p.1 = none → q.2 = p.2) ∧
        (∀ st, (inject_status_color MSG_ARGS_FORMAT 200).lookup p.1 = some st →
          AnsiColor.inject p.2 st.color (st.style.getD "normal") "INFO" = some q.2))
        [("event", "x"), ("custom", "y")] out :=
  format_args_keyset_and_values (inject_status_color MSG_ARGS_FORMAT 200)
    [("event", "x"), ("custom", "y")] "INFO" (by decide)

/-- C8 counterexample: a record with neither exception nor stack payload can
still make formatting fail — here the message template references a key absent
from the argument mapping (`KeyError` in `record.getMessage()`). -/
theorem format_fails_without_payloads :
    CustomFormatter.format "%(message)s" MSG_ARGS_FORMAT
      ⟨"DEBUG", "%(foo)s", [("bar", "1")], none, none, none, ""⟩ = none := by
  decide

/-- C8 amended: for a record with neither exception nor stack payload,
formatting skips the optional steps and produces a final line provided its two
fallible sub-steps succeed: the argument colorization (trivially, when the
argument mapping is empty or has no unresolvable registry-keyed entry) and the
message interpolation. -/
theorem format_total_without_payloads
    (styleFmt : String) (reg : List (String × FieldStyle)) (r r1 : LogRecord)
    (m : String) (hinfo : r.exc_info = none) (hexc : r.exc_text = none)
    (hstack : r.stack_info = none)
    (h1 : CustomFormatter.argStep reg r = some r1) (h2 : r1.getMessage = some m) :
    ∃ out, CustomFormatter.format styleFmt reg r =
      some (CustomFormatter.LOG_LEVEL_FORMAT r.levelname,
        { r1 with message := m }, out) := by
  obtain ⟨hlvl, hmsg, hinfo1, hexc1, hstack1, hmess1⟩ := argStep_preserves reg r r1 h1
  obtain ⟨out, hout⟩ := Option.isSome_iff_exists.mp
    (interp_level_template_isSome r.levelname { r1 with message := m })
  refine ⟨out, ?_⟩
  have hinfo1' : r1.exc_info = none := hinfo1.trans hinfo
  have hexc1' : r1.exc_text = none := hexc1.trans hexc
  have hstack1' : r1.stack_info = none := hstack1.trans hstack
  simp only [hlvl, hinfo1', hexc1', hstack1'] at hout
  simp [CustomFormatter.format, CustomFormatter.formatBody, h1, h2, hinfo1',
    hexc1', hstack1', strTruthy, hlvl, hout]

theorem format_total_without_payloads_witness :
    ∃ out, CustomFormatter.format "%(message)s" MSG_ARGS_FORMAT
        ⟨"INFO", "hi", [], none, none, none, ""⟩ =
      some (CustomFormatter.LOG_LEVEL_FORMAT "INFO",
        { (⟨"INFO", "hi", [], none, none, none, ""⟩ : LogRecord) with
          message := "hi" }, out) :=
  format_total_without_payloads "%(message)s" MSG_ARGS_FORMAT
    ⟨"INFO", "hi", [], none, none, none, ""⟩ ⟨"INFO", "hi", [], none, none, none, ""⟩
    "hi" rfl rfl rfl (by decide) (by decide)

/-- C9 counterexample: formatting does change the formatter object's own state
— the method assigns the selected severity template to `self._style._fmt`, so
a formatter whose style format string was the default `"%(message)s"` holds
the DEBUG template after formatting a DEBUG record. -/
theorem format_overwrites_style_fmt :
    (CustomFormatter.format "%(message)s" MSG_ARGS_FORMAT
        ⟨"DEBUG", "hi", [], none, none, none, ""⟩).map Prod.fst =
      some "\x1b[2m[%(levelname)s] %(message)s\x1b[0m" ∧
    ("\x1b[2m[%(levelname)s] %(message)s\x1b[0m" : String) ≠ "%(message)s" := by
  decide

/-- C9 amended: the status color slot and the formatter style's format string
are the only mutable state touched: classifying a status leaves every registry
entry other than "status" unchanged, and formatting writes only the style's
format string (always the template selected for the record's level name) and
the record itself — the registry, the color codec constants and the level
templates are module constants it never writes. -/
theorem mutable_state_frame :
    (∀ (reg : List (String × FieldStyle)) (status : Nat) (k : String),
      k ≠ "status" →
      (inject_status_color reg status).lookup k = reg.lookup k) ∧
    (∀ (styleFmt : String) (reg : List (String × FieldStyle)) (r : LogRecord)
      (res : String × LogRecord × String),
      CustomFormatter.format styleFmt reg r = some res →
      res.1 = CustomFormatter.LOG_LEVEL_FORMAT r.levelname) := by
  refine ⟨fun reg status k hk => lookup_inject_status_color_ne reg status k hk, ?_⟩
  intro styleFmt reg r res h
  have h' : (CustomFormatter.formatBody reg
      (CustomFormatter.LOG_LEVEL_FORMAT r.levelname) r).map
      (fun p => (CustomFormatter.LOG_LEVEL_FORMAT r.levelname, p.1, p.2)) =
      some res := h
  cases hb : CustomFormatter.formatBody reg
      (CustomFormatter.LOG_LEVEL_FORMAT r.levelname) r with
  | none => rw [hb] at h'; exact Option.noConfusion h'
  | some p =>
    rw [hb] at h'
    cases h'
    rfl

theorem mutable_state_frame_witness :
    (inject_status_color MSG_ARGS_FORMAT 200).lookup "event" =
      MSG_ARGS_FORMAT.lookup "event" ∧
    (("\x1b[2m[%(levelname)s] %(message)s\x1b[0m" : String),
        (⟨"DEBUG", "hi", [], none, none, none, "hi"⟩ : LogRecord),
        ("\x1b[2m[DEBUG] hi\x1b[0m" : String)).1 =
      CustomFormatter.LOG_LEVEL_FORMAT "DEBUG" :=
  ⟨mutable_state_frame.1 MSG_ARGS_FORMAT 200 "event" (by decide),
   mutable_state_frame.2 "%(message)s" MSG_ARGS_FORMAT
     ⟨"DEBUG", "hi", [], none, none, none, ""⟩
     ("\x1b[2m[%(levelname)s] %(message)s\x1b[0m",
       ⟨"DEBUG", "hi", [], none, none, none, "hi"⟩, "\x1b[2m[DEBUG] hi\x1b[0m")
     (by decide)⟩

/-- C10: formatting mutates the record itself — on the record at level DEBUG
with message template "hello", argument `event = "x"` and an attached
exception rendering to "boom", one `format` call replaces the argument value
with its colorized form, caches the rendered exception text in `exc_text`, and
overwrites `message` with the composed text; a second `format` call on the
resulting record injects color codes again into the already-colorized argument
value, so per-record formatting is not idempotent. -/
theorem format_not_idempotent :
    CustomFormatter.format "%(message)s" MSG_ARGS_FORMAT
        ⟨"DEBUG", "hello", [("event", "x")], some "boom", none, none, ""⟩ =
      some (CustomFormatter.LOG_LEVEL_FORMAT "DEBUG",
        ⟨"DEBUG", "hello", [("event", "\x1b[0m\x1b[32m\x1b[22mx\x1b[0m\x1b[2m")],
          some "boom", some "boom", none, "hello\n\x1b[2mboom"⟩,
        "\x1b[2m[DEBUG] hello\n\x1b[2mboom\x1b[0m") ∧
    CustomFormatter.format "%(message)s" MSG_ARGS_FORMAT
        ⟨"DEBUG", "hello", [("event", "\x1b[0m\x1b[32m\x1b[22mx\x1b[0m\x1b[2m")],
          some "boom", some "boom", none, "hello\n\x1b[2mboom"⟩ =
      some (CustomFormatter.LOG_LEVEL_FORMAT "DEBUG",
        ⟨"DEBUG", "hello",
          [("event",
            "\x1b[0m\x1b[32m\x1b[22m\x1b[0m\x1b[32m\x1b[22mx\x1b[0m\x1b[2m\x1b[0m\x1b[2m")],
          some "boom", some "boom", none, "hello\n\x1b[2mboom"⟩,
        "\x1b[2m[DEBUG] hello\n\x1b[2mboom\x1b[0m") ∧
    ("\x1b[0m\x1b[32m\x1b[22m\x1b[0m\x1b[32m\x1b[22mx\x1b[0m\x1b[2m\x1b[0m\x1b[2m" : String) ≠
      "\x1b[0m\x1b[32m\x1b[22mx\x1b[0m\x1b[2m" := by
  refine ⟨by decide, by decide, by decide⟩
